import Mathlib

/-!
Verification of the air-quality ingestion and index-computation pipeline of
`asthma-guardian` (src/backend/lambda_functions/data_ingestion/handler.py).

Shallow embedding conventions:
* Python `float` concentrations are modelled as `ℚ` (all constants in the
  source are exact decimals, and every claim-relevant computation is exact).
* Python `int(x)` (truncation toward zero) is `pyInt`.
* Python dict lookups with a default (`d.get(k, 0.0)`) are modelled with
  `Option` fields and `Option.getD`.
* Effectful collaborators (the two HTTP providers and the DynamoDB writer)
  are modelled as explicit oracles passed in an `Env`; a Python function
  whose body catches all exceptions and returns `None` is modelled as a
  total function into `Option`.
-/

namespace AsthmaGuardian

/-- Python `int()` applied to a real-valued expression: truncation toward
zero (floor for non-negative arguments, ceiling for negative ones). -/
def pyInt (q : ℚ) : ℤ := if 0 ≤ q then ⌊q⌋ else ⌈q⌉

/-- The pollutant measurements map handed to `calculate_aqi`
(`measurements` in `process_nsw_air_quality_data` /
`process_bom_air_quality_data`); each pollutant key may be absent. -/
structure Measurements where
  pm25 : Option ℚ
  pm10 : Option ℚ
  ozone : Option ℚ
  no2 : Option ℚ
  so2 : Option ℚ
deriving DecidableEq

/-- `calculate_pm25_aqi` (handler.py lines 372-383): piecewise-linear
interpolation over the PM2.5 breakpoint bands, truncated with `int()`. -/
def calculate_pm25_aqi (pm25 : ℚ) : ℤ :=
  if pm25 ≤ 12.0 then
    pyInt ((pm25 / 12.0) * 50)
  else if pm25 ≤ 35.4 then
    pyInt (((pm25 - 12.1) / (35.4 - 12.1)) * (100 - 51) + 51)
  else if pm25 ≤ 55.4 then
    pyInt (((pm25 - 35.5) / (55.4 - 35.5)) * (150 - 101) + 101)
  else if pm25 ≤ 150.4 then
    pyInt (((pm25 - 55.5) / (150.4 - 55.5)) * (200 - 151) + 151)
  else
    201

/-- `calculate_pm10_aqi` (handler.py lines 385-396). -/
def calculate_pm10_aqi (pm10 : ℚ) : ℤ :=
  if pm10 ≤ 54 then
    pyInt ((pm10 / 54) * 50)
  else if pm10 ≤ 154 then
    pyInt (((pm10 - 55) / (154 - 55)) * (100 - 51) + 51)
  else if pm10 ≤ 254 then
    pyInt (((pm10 - 155) / (254 - 155)) * (150 - 101) + 101)
  else if pm10 ≤ 354 then
    pyInt (((pm10 - 255) / (354 - 255)) * (200 - 151) + 151)
  else
    201

/-- `calculate_aqi` (handler.py lines 347-370): PM2.5 and PM10 sub-indices
(with absent entries defaulting to 0.0), combined with `max`.  The
`try/except` wrapper returning 0 is unreachable in the pure model. -/
def calculate_aqi (measurements : Measurements) : ℤ :=
  let pm25 := measurements.pm25.getD 0.0
  let pm10 := measurements.pm10.getD 0.0
  let pm25_aqi := calculate_pm25_aqi pm25
  let pm10_aqi := calculate_pm10_aqi pm10
  max pm25_aqi pm10_aqi

/-- `get_quality_rating` (handler.py lines 398-419). -/
def get_quality_rating (aqi : ℤ) : String :=
  if aqi ≤ 50 then "good"
  else if aqi ≤ 100 then "moderate"
  else if aqi ≤ 150 then "unhealthy_for_sensitive_groups"
  else if aqi ≤ 200 then "unhealthy"
  else if aqi ≤ 300 then "very_unhealthy"
  else "hazardous"

/-- The canonical processed air-quality record: the dict assembled by
`process_nsw_air_quality_data` / `process_bom_air_quality_data`
(handler.py lines 285-298 and 328-341). -/
structure AQData where
  postcode : String
  latitude : ℚ
  longitude : ℚ
  timestamp : String
  aqi : ℤ
  quality_rating : String
  pm25 : ℚ
  pm10 : ℚ
  ozone : ℚ
  no2 : ℚ
  so2 : ℚ
  source : String
deriving DecidableEq

/-- The `location` sub-map of a provider payload: either coordinate key may
be absent (NSW uses keys `latitude`/`longitude`, BOM uses `lat`/`lon`; both
default to 0.0). -/
structure LocationInfo where
  latitude : Option ℚ
  longitude : Option ℚ
deriving DecidableEq

/-- The payload found under the `data` key of a NSW API response: `location`
and `measurements` sub-maps, each possibly absent (`data.get(..., {})`). -/
structure NswRaw where
  location : Option LocationInfo
  measurements : Option Measurements
deriving DecidableEq

/-- The payload found under the `observations` key of a BOM API response. -/
structure BomRaw where
  location : Option LocationInfo
  air_quality : Option Measurements
deriving DecidableEq

/-- What one call of `fetch_nsw_air_quality_data` /
`fetch_bom_air_quality_data` observes from its HTTP request: the request,
status check or JSON decoding raised; the response had no usable payload
(`not data or <key> not in data`); or a payload was present. -/
inductive ApiResult (α : Type) where
  | raised (msg : String)
  | empty
  | payload (a : α)
deriving DecidableEq

/-- `process_nsw_air_quality_data` (handler.py lines 261-302).  `utcnow`
models `datetime.utcnow().isoformat()`; the dict is built with defaults of
0.0 for every absent field and tagged `source = "nsw_government"`. -/
def process_nsw_air_quality_data (data : NswRaw) (postcode : String) (utcnow : String) :
    AQData :=
  let location := data.location.getD ⟨none, none⟩
  let latitude := location.latitude.getD 0.0
  let longitude := location.longitude.getD 0.0
  let measurements := data.measurements.getD ⟨none, none, none, none, none⟩
  let aqi := calculate_aqi measurements
  let quality_rating := get_quality_rating aqi
  { postcode := postcode
    latitude := latitude
    longitude := longitude
    timestamp := utcnow ++ "Z"
    aqi := aqi
    quality_rating := quality_rating
    pm25 := measurements.pm25.getD 0.0
    pm10 := measurements.pm10.getD 0.0
    ozone := measurements.ozone.getD 0.0
    no2 := measurements.no2.getD 0.0
    so2 := measurements.so2.getD 0.0
    source := "nsw_government" }

/-- `process_bom_air_quality_data` (handler.py lines 304-345): same shape as
the NSW variant but reads the `air_quality` sub-map and tags
`source = "bom"`. -/
def process_bom_air_quality_data (data : BomRaw) (postcode : String) (utcnow : String) :
    AQData :=
  let location := data.location.getD ⟨none, none⟩
  let latitude := location.latitude.getD 0.0
  let longitude := location.longitude.getD 0.0
  let measurements := data.air_quality.getD ⟨none, none, none, none, none⟩
  let aqi := calculate_aqi measurements
  let quality_rating := get_quality_rating aqi
  { postcode := postcode
    latitude := latitude
    longitude := longitude
    timestamp := utcnow ++ "Z"
    aqi := aqi
    quality_rating := quality_rating
    pm25 := measurements.pm25.getD 0.0
    pm10 := measurements.pm10.getD 0.0
    ozone := measurements.ozone.getD 0.0
    no2 := measurements.no2.getD 0.0
    so2 := measurements.so2.getD 0.0
    source := "bom" }

/-- `fetch_nsw_air_quality_data` (handler.py lines 195-226): any exception
during the request is caught and yields `None`; an empty/keyless response
yields `None`; otherwise the payload is processed. -/
def fetch_nsw_air_quality_data (api : String → ApiResult NswRaw) (utcnow postcode : String) :
    Option AQData :=
  match api postcode with
  | .raised _ => none
  | .empty => none
  | .payload raw => some (process_nsw_air_quality_data raw postcode utcnow)

/-- `fetch_bom_air_quality_data` (handler.py lines 228-259). -/
def fetch_bom_air_quality_data (api : String → ApiResult BomRaw) (utcnow postcode : String) :
    Option AQData :=
  match api postcode with
  | .raised _ => none
  | .empty => none
  | .payload raw => some (process_bom_air_quality_data raw postcode utcnow)

/-- `fetch_air_quality_data` (handler.py lines 168-193): NSW first, BOM as
fallback, `None` when both yield nothing.  The surrounding `try/except`
returning `None` is unreachable in the pure model. -/
def fetch_air_quality_data (nswApi : String → ApiResult NswRaw)
    (bomApi : String → ApiResult BomRaw) (utcnow postcode : String) : Option AQData :=
  match fetch_nsw_air_quality_data nswApi utcnow postcode with
  | some nsw_data => some nsw_data
  | none =>
    match fetch_bom_air_quality_data bomApi utcnow postcode with
    | some bom_data => some bom_data
    | none => none

/-- External collaborators of the ingestion run: the two provider APIs, the
DynamoDB writer (`store_air_quality_data`, handler.py lines 421-454, which
logs and re-raises on failure — modelled as `Except`), and the ingestion
clock reading `datetime.utcnow().isoformat()`. -/
structure Env where
  nswApi : String → ApiResult NswRaw
  bomApi : String → ApiResult BomRaw
  store : String → AQData → Except String Unit
  utcnow : String

/-- The `results` accumulator dict of `ingest_air_quality_data`
(handler.py lines 135-140). -/
structure IngestResults where
  total_postcodes : Nat
  successful : Nat
  failed : Nat
  errors : List String
deriving DecidableEq

/-- The body of the per-postcode loop of `ingest_air_quality_data`
(handler.py lines 142-160): a fetch success followed by a successful store
counts as successful; a fetch returning `None` records a no-data failure;
an exception (in the model, only the store can raise) records an error
failure.  Either way the loop continues. -/
def ingest_postcode (env : Env) (results : IngestResults) (postcode : String) :
    IngestResults :=
  match fetch_air_quality_data env.nswApi env.bomApi env.utcnow postcode with
  | some air_quality_data =>
    match env.store postcode air_quality_data with
    | .ok _ => { results with successful := results.successful + 1 }
    | .error e =>
      { results with
          failed := results.failed + 1
          errors := results.errors ++
            ["Error ingesting data for postcode " ++ postcode ++ ": " ++ e] }
  | none =>
    { results with
        failed := results.failed + 1
        errors := results.errors ++ ["No data available for postcode " ++ postcode] }

/-- The loop of `ingest_air_quality_data` run over a concrete postcode
list, starting from the freshly initialised accumulator. -/
def ingest_list (env : Env) (postcodes : List String) : IngestResults :=
  postcodes.foldl (ingest_postcode env) ⟨postcodes.length, 0, 0, []⟩

/-- `get_nsw_postcodes` (handler.py lines 456-545). -/
def get_nsw_postcodes : List String :=
  ["2000", "2001", "2010", "2011", "2020", "2030", "2040", "2050", "2060",
   "2070", "2088", "2090", "2100", "2110", "2120", "2130", "2140", "2150",
   "2160", "2170", "2200", "2210", "2220", "2230", "2250", "2300", "2320",
   "2325", "2330", "2340", "2350", "2400", "2450", "2500", "2520", "2530",
   "2540", "2550", "2560", "2570", "2580", "2590", "2600", "2610", "2620",
   "2640", "2650", "2700", "2710", "2720", "2730", "2740", "2750", "2760",
   "2770", "2780", "2790", "2800", "2810", "2820", "2830", "2840", "2850",
   "2860", "2870", "2880", "2890", "2900", "2910", "2920", "2930", "2940",
   "2950", "2960", "2970", "2980", "2990", "3000"]

/-- `ingest_air_quality_data` (handler.py lines 121-166): `if not postcodes`
treats both a missing argument and an explicitly empty list as "use the
default registry". -/
def ingest_air_quality_data (env : Env) (postcodes : Option (List String)) :
    IngestResults :=
  let pcs :=
    match postcodes with
    | none => get_nsw_postcodes
    | some l => if l.isEmpty then get_nsw_postcodes else l
  ingest_list env pcs

/-- `handle_manual_ingestion` (handler.py lines 91-119):
the postcodes list taken from the event when present, defaulting to
`get_nsw_postcodes()`, then the ingestion run;
the returned body wraps the `IngestResults`, which is what we model. -/
def handle_manual_ingestion (env : Env) (eventPostcodes : Option (List String)) :
    IngestResults :=
  let postcodes := eventPostcodes.getD get_nsw_postcodes
  ingest_air_quality_data env (some postcodes)

theorem pyInt_eq_floor (q : ℚ) (h : 0 ≤ q) : pyInt q = ⌊q⌋ := if_pos h

theorem floor_le_cast (q : ℚ) (z : ℤ) (h : q ≤ (z : ℚ)) : ⌊q⌋ ≤ z := by
  have h2 := Int.floor_mono h
  rwa [Int.floor_intCast] at h2

theorem pm25_band1 (a : ℚ) (h0 : 0 ≤ a) (h : a ≤ 12.0) :
    calculate_pm25_aqi a = ⌊(a / 12.0) * 50⌋ := by
  unfold calculate_pm25_aqi
  rw [if_pos h, pyInt_eq_floor _ (by norm_num; linarith)]

theorem pm25_band2 (a : ℚ) (h1 : ¬ a ≤ 12.0) (h2 : a ≤ 35.4) :
    calculate_pm25_aqi a = ⌊((a - 12.1) / (35.4 - 12.1)) * (100 - 51) + 51⌋ := by
  have h1' := not_le.mp h1
  unfold calculate_pm25_aqi
  rw [if_neg h1, if_pos h2, pyInt_eq_floor _ (by norm_num; linarith)]

theorem pm25_band3 (a : ℚ) (h2 : ¬ a ≤ 35.4) (h3 : a ≤ 55.4) :
    calculate_pm25_aqi a = ⌊((a - 35.5) / (55.4 - 35.5)) * (150 - 101) + 101⌋ := by
  have h2' := not_le.mp h2
  unfold calculate_pm25_aqi
  rw [if_neg (by push_neg; linarith), if_neg h2, if_pos h3,
    pyInt_eq_floor _ (by norm_num; linarith)]

theorem pm25_band4 (a : ℚ) (h3 : ¬ a ≤ 55.4) (h4 : a ≤ 150.4) :
    calculate_pm25_aqi a = ⌊((a - 55.5) / (150.4 - 55.5)) * (200 - 151) + 151⌋ := by
  have h3' := not_le.mp h3
  unfold calculate_pm25_aqi
  rw [if_neg (by push_neg; linarith), if_neg (by push_neg; linarith), if_neg h3,
    if_pos h4, pyInt_eq_floor _ (by norm_num; linarith)]

theorem pm25_band5 (a : ℚ) (h4 : ¬ a ≤ 150.4) : calculate_pm25_aqi a = 201 := by
  have h4' := not_le.mp h4
  unfold calculate_pm25_aqi
  rw [if_neg (by push_neg; linarith), if_neg (by push_neg; linarith),
    if_neg (by push_neg; linarith), if_neg h4]

theorem pm25_aqi_nonneg (a : ℚ) (h0 : 0 ≤ a) : 0 ≤ calculate_pm25_aqi a := by
  rcases le_or_lt a 12.0 with h1 | h1
  · rw [pm25_band1 a h0 h1]
    exact Int.le_floor.mpr (by push_cast; norm_num; linarith)
  rcases le_or_lt a 35.4 with h2 | h2
  · rw [pm25_band2 a (not_le.mpr h1) h2]
    exact Int.le_floor.mpr (by push_cast; norm_num; linarith)
  rcases le_or_lt a 55.4 with h3 | h3
  · rw [pm25_band3 a (not_le.mpr h2) h3]
    exact Int.le_floor.mpr (by push_cast; norm_num; linarith)
  rcases le_or_lt a 150.4 with h4 | h4
  · rw [pm25_band4 a (not_le.mpr h3) h4]
    exact Int.le_floor.mpr (by push_cast; norm_num; linarith)
  · rw [pm25_band5 a (not_le.mpr h4)]
    norm_num

theorem pm25_ub50 (a : ℚ) (h0 : 0 ≤ a) (h : a ≤ 12.0) : calculate_pm25_aqi a ≤ 50 := by
  rw [pm25_band1 a h0 h]
  exact floor_le_cast _ _ (by push_cast; norm_num; linarith)

theorem pm25_ub100 (a : ℚ) (h1 : ¬ a ≤ 12.0) (h2 : a ≤ 35.4) :
    calculate_pm25_aqi a ≤ 100 := by
  rw [pm25_band2 a h1 h2]
  exact floor_le_cast _ _ (by push_cast; norm_num; linarith)

theorem pm25_ub150 (a : ℚ) (h2 : ¬ a ≤ 35.4) (h3 : a ≤ 55.4) :
    calculate_pm25_aqi a ≤ 150 := by
  rw [pm25_band3 a h2 h3]
  exact floor_le_cast _ _ (by push_cast; norm_num; linarith)

theorem pm25_ub200 (a : ℚ) (h3 : ¬ a ≤ 55.4) (h4 : a ≤ 150.4) :
    calculate_pm25_aqi a ≤ 200 := by
  rw [pm25_band4 a h3 h4]
  exact floor_le_cast _ _ (by push_cast; norm_num; linarith)

theorem pm25_aqi_le_201 (a : ℚ) (h0 : 0 ≤ a) : calculate_pm25_aqi a ≤ 201 := by
  rcases le_or_lt a 12.0 with h1 | h1
  · exact le_trans (pm25_ub50 a h0 h1) (by norm_num)
  rcases le_or_lt a 35.4 with h2 | h2
  · exact le_trans (pm25_ub100 a (not_le.mpr h1) h2) (by norm_num)
  rcases le_or_lt a 55.4 with h3 | h3
  · exact le_trans (pm25_ub150 a (not_le.mpr h2) h3) (by norm_num)
  rcases le_or_lt a 150.4 with h4 | h4
  · exact le_trans (pm25_ub200 a (not_le.mpr h3) h4) (by norm_num)
  · rw [pm25_band5 a (not_le.mpr h4)]

theorem pm25_lb50 (b : ℚ) (hb : 12.0 < b) : 50 ≤ calculate_pm25_aqi b := by
  rcases le_or_lt b 35.4 with h2 | h2
  · rw [pm25_band2 b (not_le.mpr hb) h2]
    exact Int.le_floor.mpr (by push_cast; norm_num; linarith)
  rcases le_or_lt b 55.4 with h3 | h3
  · rw [pm25_band3 b (not_le.mpr h2) h3]
    exact Int.le_floor.mpr (by push_cast; norm_num; linarith)
  rcases le_or_lt b 150.4 with h4 | h4
  · rw [pm25_band4 b (not_le.mpr h3) h4]
    exact Int.le_floor.mpr (by push_cast; norm_num; linarith)
  · rw [pm25_band5 b (not_le.mpr h4)]
    norm_num

theorem pm25_lb100 (b : ℚ) (hb : 35.4 < b) : 100 ≤ calculate_pm25_aqi b := by
  rcases le_or_lt b 55.4 with h3 | h3
  · rw [pm25_band3 b (not_le.mpr hb) h3]
    exact Int.le_floor.mpr (by push_cast; norm_num; linarith)
  rcases le_or_lt b 150.4 with h4 | h4
  · rw [pm25_band4 b (not_le.mpr h3) h4]
    exact Int.le_floor.mpr (by push_cast; norm_num; linarith)
  · rw [pm25_band5 b (not_le.mpr h4)]
    norm_num

theorem pm25_lb150 (b : ℚ) (hb : 55.4 < b) : 150 ≤ calculate_pm25_aqi b := by
  rcases le_or_lt b 150.4 with h4 | h4
  · rw [pm25_band4 b (not_le.mpr hb) h4]
    exact Int.le_floor.mpr (by push_cast; norm_num; linarith)
  · rw [pm25_band5 b (not_le.mpr h4)]
    norm_num

theorem pm25_mono_band1 (a b : ℚ) (h0 : 0 ≤ a) (hab : a ≤ b) (hb : b ≤ 12.0) :
    calculate_pm25_aqi a ≤ calculate_pm25_aqi b := by
  rw [pm25_band1 a h0 (le_trans hab hb), pm25_band1 b (le_trans h0 hab) hb]
  exact Int.floor_mono (by norm_num; linarith)

theorem pm25_mono_band2 (a b : ℚ) (ha : 12.0 < a) (hab : a ≤ b) (hb : b ≤ 35.4) :
    calculate_pm25_aqi a ≤ calculate_pm25_aqi b := by
  rw [pm25_band2 a (not_le.mpr ha) (le_trans hab hb),
    pm25_band2 b (not_le.mpr (lt_of_lt_of_le ha hab)) hb]
  exact Int.floor_mono (by norm_num; linarith)

theorem pm25_mono_band3 (a b : ℚ) (ha : 35.4 < a) (hab : a ≤ b) (hb : b ≤ 55.4) :
    calculate_pm25_aqi a ≤ calculate_pm25_aqi b := by
  rw [pm25_band3 a (not_le.mpr ha) (le_trans hab hb),
    pm25_band3 b (not_le.mpr (lt_of_lt_of_le ha hab)) hb]
  exact Int.floor_mono (by norm_num; linarith)

theorem pm25_mono_band4 (a b : ℚ) (ha : 55.4 < a) (hab : a ≤ b) (hb : b ≤ 150.4) :
    calculate_pm25_aqi a ≤ calculate_pm25_aqi b := by
  rw [pm25_band4 a (not_le.mpr ha) (le_trans hab hb),
    pm25_band4 b (not_le.mpr (lt_of_lt_of_le ha hab)) hb]
  exact Int.floor_mono (by norm_num; linarith)

theorem pm10_band1 (a : ℚ) (h0 : 0 ≤ a) (h : a ≤ 54) :
    calculate_pm10_aqi a = ⌊(a / 54) * 50⌋ := by
  unfold calculate_pm10_aqi
  rw [if_pos h, pyInt_eq_floor _ (by norm_num; linarith)]

theorem pm10_band2 (a : ℚ) (h1 : ¬ a ≤ 54) (h2 : a ≤ 154) :
    calculate_pm10_aqi a = ⌊((a - 55) / (154 - 55)) * (100 - 51) + 51⌋ := by
  have h1' := not_le.mp h1
  unfold calculate_pm10_aqi
  rw [if_neg h1, if_pos h2, pyInt_eq_floor _ (by norm_num; linarith)]

theorem pm10_band3 (a : ℚ) (h2 : ¬ a ≤ 154) (h3 : a ≤ 254) :
    calculate_pm10_aqi a = ⌊((a - 155) / (254 - 155)) * (150 - 101) + 101⌋ := by
  have h2' := not_le.mp h2
  unfold calculate_pm10_aqi
  rw [if_neg (by push_neg; linarith), if_neg h2, if_pos h3,
    pyInt_eq_floor _ (by norm_num; linarith)]

theorem pm10_band4 (a : ℚ) (h3 : ¬ a ≤ 254) (h4 : a ≤ 354) :
    calculate_pm10_aqi a = ⌊((a - 255) / (354 - 255)) * (200 - 151) + 151⌋ := by
  have h3' := not_le.mp h3
  unfold calculate_pm10_aqi
  rw [if_neg (by push_neg; linarith), if_neg (by push_neg; linarith), if_neg h3,
    if_pos h4, pyInt_eq_floor _ (by norm_num; linarith)]

theorem pm10_band5 (a : ℚ) (h4 : ¬ a ≤ 354) : calculate_pm10_aqi a = 201 := by
  have h4' := not_le.mp h4
  unfold calculate_pm10_aqi
  rw [if_neg (by push_neg; linarith), if_neg (by push_neg; linarith),
    if_neg (by push_neg; linarith), if_neg h4]

theorem pm10_aqi_nonneg (a : ℚ) (h0 : 0 ≤ a) : 0 ≤ calculate_pm10_aqi a := by
  rcases le_or_lt a 54 with h1 | h1
  · rw [pm10_band1 a h0 h1]
    exact Int.le_floor.mpr (by push_cast; norm_num; linarith)
  rcases le_or_lt a 154 with h2 | h2
  · rw [pm10_band2 a (not_le.mpr h1) h2]
    exact Int.le_floor.mpr (by push_cast; norm_num; linarith)
  rcases le_or_lt a 254 with h3 | h3
  · rw [pm10_band3 a (not_le.mpr h2) h3]
    exact Int.le_floor.mpr (by push_cast; norm_num; linarith)
  rcases le_or_lt a 354 with h4 | h4
  · rw [pm10_band4 a (not_le.mpr h3) h4]
    exact Int.le_floor.mpr (by push_cast; norm_num; linarith)
  · rw [pm10_band5 a (not_le.mpr h4)]
    norm_num

theorem pm10_aqi_le_201 (a : ℚ) (h0 : 0 ≤ a) : calculate_pm10_aqi a ≤ 201 := by
  rcases le_or_lt a 54 with h1 | h1
  · rw [pm10_band1 a h0 h1]
    exact le_trans (floor_le_cast _ 50 (by push_cast; norm_num; linarith)) (by norm_num)
  rcases le_or_lt a 154 with h2 | h2
  · rw [pm10_band2 a (not_le.mpr h1) h2]
    exact le_trans (floor_le_cast _ 100 (by push_cast; norm_num; linarith)) (by norm_num)
  rcases le_or_lt a 254 with h3 | h3
  · rw [pm10_band3 a (not_le.mpr h2) h3]
    exact le_trans (floor_le_cast _ 150 (by push_cast; norm_num; linarith)) (by norm_num)
  rcases le_or_lt a 354 with h4 | h4
  · rw [pm10_band4 a (not_le.mpr h3) h4]
    exact le_trans (floor_le_cast _ 200 (by push_cast; norm_num; linarith)) (by norm_num)
  · rw [pm10_band5 a (not_le.mpr h4)]

/-- C1: `calculate_aqi` is exactly the max of the PM2.5 and PM10 sub-indices,
with absent entries defaulting to 0.0, so two measurement maps that agree on
pm25 and pm10 (and differ only in ozone/no2/so2) yield the same AQI. -/
theorem calculate_aqi_is_max_of_pm_subindices :
    (∀ m : Measurements, calculate_aqi m =
      max (calculate_pm25_aqi (m.pm25.getD 0.0)) (calculate_pm10_aqi (m.pm10.getD 0.0))) ∧
    (∀ m₁ m₂ : Measurements, m₁.pm25 = m₂.pm25 → m₁.pm10 = m₂.pm10 →
      calculate_aqi m₁ = calculate_aqi m₂) := by
  refine ⟨fun m => rfl, fun m₁ m₂ h25 h10 => ?_⟩
  unfold calculate_aqi
  rw [h25, h10]

/-- Witness for C1 at concrete maps differing only in ozone/no2/so2. -/
theorem calculate_aqi_is_max_of_pm_subindices_witness :
    calculate_aqi ⟨some 20, some 80, some 100, none, none⟩ =
      calculate_aqi ⟨some 20, some 80, some 999, some 7, some 8⟩ :=
  calculate_aqi_is_max_of_pm_subindices.2 _ _ rfl rfl

/-- C2: the reference values of the two sub-index calculators. -/
theorem aqi_subindex_reference_values :
    calculate_pm25_aqi 0.0 = 0 ∧ calculate_pm25_aqi 12.0 = 50 ∧
    calculate_pm25_aqi 35.4 = 100 ∧ calculate_pm25_aqi 55.4 = 150 ∧
    calculate_pm25_aqi 200.0 = 201 ∧
    calculate_pm10_aqi 54 = 50 ∧ calculate_pm10_aqi 154 = 100 ∧
    calculate_pm10_aqi 500 = 201 := by
  refine ⟨?_, ?_, ?_, ?_, ?_, ?_, ?_, ?_⟩ <;>
    norm_num [calculate_pm25_aqi, calculate_pm10_aqi, pyInt]

/-- C3: `get_quality_rating` classifies an integer AQI exactly by the
inclusive upper bounds 50/100/150/200/300, with "hazardous" above 300. -/
theorem get_quality_rating_bands (aqi : ℤ) :
    (get_quality_rating aqi = "good" ↔ aqi ≤ 50) ∧
    (get_quality_rating aqi = "moderate" ↔ (50 < aqi ∧ aqi ≤ 100)) ∧
    (get_quality_rating aqi = "unhealthy_for_sensitive_groups" ↔ (100 < aqi ∧ aqi ≤ 150)) ∧
    (get_quality_rating aqi = "unhealthy" ↔ (150 < aqi ∧ aqi ≤ 200)) ∧
    (get_quality_rating aqi = "very_unhealthy" ↔ (200 < aqi ∧ aqi ≤ 300)) ∧
    (300 < aqi → get_quality_rating aqi = "hazardous") := by
  unfold get_quality_rating
  split_ifs with h1 h2 h3 h4 h5 <;>
    refine ⟨?_, ?_, ?_, ?_, ?_, ?_⟩ <;> simp_all <;> omega

/-- Witness for C3 at a concrete AQI value. -/
theorem get_quality_rating_bands_witness : get_quality_rating 301 = "hazardous" :=
  (get_quality_rating_bands 301).2.2.2.2.2 (by norm_num)

/-- C4: `calculate_pm25_aqi` is monotone non-decreasing on non-negative
concentrations, within bands and across band boundaries (including the gaps
between tabulated bands, e.g. between 12.0 and 12.1). -/
theorem calculate_pm25_aqi_mono (a b : ℚ) (h0 : 0 ≤ a) (hab : a ≤ b) :
    calculate_pm25_aqi a ≤ calculate_pm25_aqi b := by
  rcases le_or_lt b 12.0 with hb1 | hb1
  · exact pm25_mono_band1 a b h0 hab hb1
  rcases le_or_lt a 12.0 with ha1 | ha1
  · exact le_trans (pm25_ub50 a h0 ha1) (pm25_lb50 b hb1)
  rcases le_or_lt b 35.4 with hb2 | hb2
  · exact pm25_mono_band2 a b ha1 hab hb2
  rcases le_or_lt a 35.4 with ha2 | ha2
  · exact le_trans (pm25_ub100 a (not_le.mpr ha1) ha2) (pm25_lb100 b hb2)
  rcases le_or_lt b 55.4 with hb3 | hb3
  · exact pm25_mono_band3 a b ha2 hab hb3
  rcases le_or_lt a 55.4 with ha3 | ha3
  · exact le_trans (pm25_ub150 a (not_le.mpr ha2) ha3) (pm25_lb150 b hb3)
  rcases le_or_lt b 150.4 with hb4 | hb4
  · exact pm25_mono_band4 a b ha3 hab hb4
  rcases le_or_lt a 150.4 with ha4 | ha4
  · rw [pm25_band5 b (not_le.mpr hb4)]
    exact le_trans (pm25_ub200 a (not_le.mpr ha3) ha4) (by norm_num)
  · rw [pm25_band5 a (not_le.mpr ha4), pm25_band5 b (not_le.mpr hb4)]

/-- Witness for C4, crossing a band boundary through the gap (12.0, 12.1). -/
theorem calculate_pm25_aqi_mono_witness :
    calculate_pm25_aqi 12.0 ≤ calculate_pm25_aqi 12.05 :=
  calculate_pm25_aqi_mono 12.0 12.05 (by norm_num) (by norm_num)

/-- C9: for a measurements map whose pm25/pm10 entries (defaulting to 0.0)
are non-negative, `calculate_aqi` lies in [0, 201], and 201 is the
saturation ceiling reached by arbitrarily large pm25 concentrations. -/
theorem calculate_aqi_range (m : Measurements)
    (h25 : 0 ≤ m.pm25.getD 0.0) (h10 : 0 ≤ m.pm10.getD 0.0) :
    0 ≤ calculate_aqi m ∧ calculate_aqi m ≤ 201 ∧
      (150.4 < m.pm25.getD 0.0 → calculate_aqi m = 201) := by
  refine ⟨?_, ?_, ?_⟩
  · exact le_max_of_le_left (pm25_aqi_nonneg _ h25)
  · exact max_le (pm25_aqi_le_201 _ h25) (pm10_aqi_le_201 _ h10)
  · intro hbig
    show max (calculate_pm25_aqi (m.pm25.getD 0.0)) (calculate_pm10_aqi (m.pm10.getD 0.0)) = 201
    rw [pm25_band5 _ (not_le.mpr hbig)]
    exact max_eq_left (pm10_aqi_le_201 _ h10)

/-- Witness for C9 at a saturating concrete input. -/
theorem calculate_aqi_range_witness :
    0 ≤ calculate_aqi ⟨some 5000, some 12, none, none, none⟩ ∧
      calculate_aqi ⟨some 5000, some 12, none, none, none⟩ = 201 :=
  ⟨(calculate_aqi_range _ (by norm_num) (by norm_num)).1,
   (calculate_aqi_range ⟨some 5000, some 12, none, none, none⟩
      (by norm_num) (by norm_num)).2.2 (by norm_num)⟩

theorem ingest_postcode_step (env : Env) (acc : IngestResults) (p : String) :
    (ingest_postcode env acc p).total_postcodes = acc.total_postcodes ∧
    (ingest_postcode env acc p).successful + (ingest_postcode env acc p).failed
      = acc.successful + acc.failed + 1 ∧
    (ingest_postcode env acc p).errors.length + acc.failed
      = acc.errors.length + (ingest_postcode env acc p).failed := by
  unfold ingest_postcode
  cases hf : fetch_air_quality_data env.nswApi env.bomApi env.utcnow p with
  | none => simp <;> omega
  | some d =>
    cases hs : env.store p d with
    | ok u => simp [hs] <;> omega
    | error e => simp [hs] <;> omega

theorem ingest_foldl_invariant (env : Env) (l : List String) (acc : IngestResults) :
    (l.foldl (ingest_postcode env) acc).total_postcodes = acc.total_postcodes ∧
    (l.foldl (ingest_postcode env) acc).successful
        + (l.foldl (ingest_postcode env) acc).failed
      = acc.successful + acc.failed + l.length ∧
    (l.foldl (ingest_postcode env) acc).errors.length + acc.failed
      = acc.errors.length + (l.foldl (ingest_postcode env) acc).failed := by
  induction l generalizing acc with
  | nil => simp
  | cons p rest ih =>
    have hstep := ingest_postcode_step env acc p
    have hrest := ih (ingest_postcode env acc p)
    simp only [List.foldl_cons, List.length_cons]
    omega

theorem ingest_list_invariant (env : Env) (pcs : List String) :
    (ingest_list env pcs).total_postcodes = pcs.length ∧
    (ingest_list env pcs).successful + (ingest_list env pcs).failed = pcs.length ∧
    (ingest_list env pcs).errors.length = (ingest_list env pcs).failed := by
  have h := ingest_foldl_invariant env pcs ⟨pcs.length, 0, 0, []⟩
  dsimp only [List.length_nil] at h
  unfold ingest_list
  omega

theorem ingest_run_eq_list (env : Env) (postcodes : Option (List String)) :
    ∃ pcs : List String, ingest_air_quality_data env postcodes = ingest_list env pcs := by
  unfold ingest_air_quality_data
  rcases postcodes with _ | l
  · exact ⟨get_nsw_postcodes, rfl⟩
  · by_cases he : l.isEmpty
    · exact ⟨get_nsw_postcodes, by simp [he]⟩
    · exact ⟨l, by simp [he]⟩

/-- The ten-location batch scenario: three of the ten postcodes get a
well-formed empty response (`NoDataError`) from both providers; every other
fetch succeeds and every store succeeds. -/
def batchEnv : Env :=
  { nswApi := fun p =>
      if p = "2010" ∨ p = "2020" ∨ p = "2030" then .empty
      else .payload ⟨some ⟨some 1, some 2⟩, some ⟨some 20, some 40, none, none, none⟩⟩
    bomApi := fun _ => .empty
    store := fun _ _ => .ok ()
    utcnow := "2025-06-01T00:00:00" }

/-- The ten postcodes of the batch scenario. -/
def batchPostcodes : List String :=
  ["2000", "2001", "2010", "2011", "2020", "2030", "2040", "2050", "2060", "2070"]

/-- C5: per-location failures never abort the run: every run returns an
accumulator with `successful + failed = total_postcodes` and one error
message per failure, and in the reference ten-location scenario with three
all-adapter no-data locations the result is total 10, successful 7,
failed 3, errors of length 3. -/
theorem ingest_run_bookkeeping :
    (∀ (env : Env) (postcodes : Option (List String)),
      (ingest_air_quality_data env postcodes).successful
          + (ingest_air_quality_data env postcodes).failed
        = (ingest_air_quality_data env postcodes).total_postcodes ∧
      (ingest_air_quality_data env postcodes).errors.length
        = (ingest_air_quality_data env postcodes).failed) ∧
    ((ingest_air_quality_data batchEnv (some batchPostcodes)).total_postcodes = 10 ∧
      (ingest_air_quality_data batchEnv (some batchPostcodes)).successful = 7 ∧
      (ingest_air_quality_data batchEnv (some batchPostcodes)).failed = 3 ∧
      (ingest_air_quality_data batchEnv (some batchPostcodes)).errors.length = 3) := by
  constructor
  · intro env postcodes
    obtain ⟨pcs, hpcs⟩ := ingest_run_eq_list env postcodes
    rw [hpcs]
    have h := ingest_list_invariant env pcs
    omega
  · decide

/-- C6: when the fetch for a location succeeds but the store raises, the
location is counted as failed (not successful), one error message is
recorded for it, and the run continues with the remaining locations. -/
theorem store_failure_counts_as_failed (env : Env) (p : String) (d : AQData)
    (msg : String) (acc : IngestResults) (rest : List String)
    (hfetch : fetch_air_quality_data env.nswApi env.bomApi env.utcnow p = some d)
    (hstore : env.store p d = .error msg) :
    (ingest_postcode env acc p).successful = acc.successful ∧
    (ingest_postcode env acc p).failed = acc.failed + 1 ∧
    (ingest_postcode env acc p).errors
      = acc.errors ++ ["Error ingesting data for postcode " ++ p ++ ": " ++ msg] ∧
    (p :: rest).foldl (ingest_postcode env) acc
      = rest.foldl (ingest_postcode env) (ingest_postcode env acc p) := by
  have hred : ingest_postcode env acc p
      = { acc with
            failed := acc.failed + 1
            errors := acc.errors ++
              ["Error ingesting data for postcode " ++ p ++ ": " ++ msg] } := by
    unfold ingest_postcode
    rw [hfetch]
    dsimp only
    rw [hstore]
  exact ⟨by rw [hred], by rw [hred], by rw [hred], by rw [List.foldl_cons]⟩

/-- Environment in which every NSW fetch succeeds but every store raises. -/
def storeFailEnv : Env :=
  { nswApi := fun _ => .payload ⟨some ⟨some 1, some 2⟩, some ⟨some 20, some 40, none, none, none⟩⟩
    bomApi := fun _ => .empty
    store := fun _ _ => .error "boom"
    utcnow := "2025-06-01T00:00:00" }

/-- Witness for C6: a concrete fetch-success/store-failure step. -/
theorem store_failure_counts_as_failed_witness :
    (ingest_postcode storeFailEnv ⟨2, 0, 0, []⟩ "2000").successful = 0 ∧
    (ingest_postcode storeFailEnv ⟨2, 0, 0, []⟩ "2000").failed = 0 + 1 ∧
    (ingest_postcode storeFailEnv ⟨2, 0, 0, []⟩ "2000").errors
      = [] ++ ["Error ingesting data for postcode " ++ "2000" ++ ": " ++ "boom"] ∧
    (["2000", "2001"].foldl (ingest_postcode storeFailEnv) ⟨2, 0, 0, []⟩
      = ["2001"].foldl (ingest_postcode storeFailEnv)
          (ingest_postcode storeFailEnv ⟨2, 0, 0, []⟩ "2000")) :=
  store_failure_counts_as_failed storeFailEnv "2000"
    (process_nsw_air_quality_data
      ⟨some ⟨some 1, some 2⟩, some ⟨some 20, some 40, none, none, none⟩⟩
      "2000" storeFailEnv.utcnow)
    "boom" ⟨2, 0, 0, []⟩ ["2001"] rfl rfl

/-- C7: the fetch orchestrator consults NSW first and BOM only when NSW
yields nothing, returns the first success, tags a fallback success with
`source = "bom"`, counts a stored fallback success as successful, and
returns `None` when both providers yield nothing. -/
theorem fetch_fallback_order (env : Env) (acc : IngestResults) (postcode : String) :
    (∀ d, fetch_nsw_air_quality_data env.nswApi env.utcnow postcode = some d →
      fetch_air_quality_data env.nswApi env.bomApi env.utcnow postcode = some d) ∧
    (∀ raw, fetch_nsw_air_quality_data env.nswApi env.utcnow postcode = none →
      env.bomApi postcode = .payload raw →
      fetch_air_quality_data env.nswApi env.bomApi env.utcnow postcode
          = some (process_bom_air_quality_data raw postcode env.utcnow) ∧
        (process_bom_air_quality_data raw postcode env.utcnow).source = "bom") ∧
    (fetch_nsw_air_quality_data env.nswApi env.utcnow postcode = none →
      fetch_bom_air_quality_data env.bomApi env.utcnow postcode = none →
      fetch_air_quality_data env.nswApi env.bomApi env.utcnow postcode = none) ∧
    (∀ d, fetch_air_quality_data env.nswApi env.bomApi env.utcnow postcode = some d →
      env.store postcode d = .ok () →
      (ingest_postcode env acc postcode).successful = acc.successful + 1) := by
  refine ⟨?_, ?_, ?_, ?_⟩
  · intro d h
    unfold fetch_air_quality_data
    rw [h]
  · intro raw hn hb
    refine ⟨?_, rfl⟩
    unfold fetch_air_quality_data
    rw [hn]
    unfold fetch_bom_air_quality_data
    rw [hb]
  · intro hn hb
    unfold fetch_air_quality_data
    rw [hn, hb]
  · intro d hf hs
    unfold ingest_postcode
    rw [hf]
    dsimp only
    rw [hs]

/-- Environment in which the primary provider raises a network error and the
secondary provider returns valid data. -/
def fallbackEnv : Env :=
  { nswApi := fun _ => .raised "NetworkError"
    bomApi := fun _ => .payload ⟨some ⟨some 3, some 4⟩, some ⟨some 10, some 30, none, none, none⟩⟩
    store := fun _ _ => .ok ()
    utcnow := "2025-06-01T00:00:00" }

/-- Witness for C7: NSW raises, BOM supplies the record, the record is
tagged `bom`, and the location counts as successful. -/
theorem fetch_fallback_order_witness :
    (fetch_air_quality_data fallbackEnv.nswApi fallbackEnv.bomApi fallbackEnv.utcnow "2000"
        = some (process_bom_air_quality_data
            ⟨some ⟨some 3, some 4⟩, some ⟨some 10, some 30, none, none, none⟩⟩
            "2000" fallbackEnv.utcnow) ∧
      (process_bom_air_quality_data
          ⟨some ⟨some 3, some 4⟩, some ⟨some 10, some 30, none, none, none⟩⟩
          "2000" fallbackEnv.utcnow).source = "bom") ∧
    (ingest_postcode fallbackEnv ⟨1, 0, 0, []⟩ "2000").successful = 0 + 1 :=
  ⟨(fetch_fallback_order fallbackEnv ⟨1, 0, 0, []⟩ "2000").2.1 _ rfl rfl,
   (fetch_fallback_order fallbackEnv ⟨1, 0, 0, []⟩ "2000").2.2.2 _
      ((fetch_fallback_order fallbackEnv ⟨1, 0, 0, []⟩ "2000").2.1 _ rfl rfl).1 rfl⟩

/-- A provider/store environment used only to give closed instances. -/
def stubEnv : Env :=
  { nswApi := fun _ => .empty
    bomApi := fun _ => .empty
    store := fun _ _ => .ok ()
    utcnow := "2025-06-01T00:00:00" }

/-- Counterexample to C8 as stated: a run invoked with the explicit (empty)
location list does not process exactly those zero locations — it falls back
to the 78-entry default registry. -/
theorem explicit_list_counterexample :
    ¬ ((ingest_air_quality_data stubEnv (some ([] : List String))).total_postcodes
        = ([] : List String).length) := by
  have h : ingest_air_quality_data stubEnv (some ([] : List String))
      = ingest_list stubEnv get_nsw_postcodes := rfl
  rw [h, (ingest_list_invariant stubEnv get_nsw_postcodes).1]
  decide

/-- C8 (amended): a run invoked with a non-empty explicit location list
processes exactly those locations, and a run invoked without a location
list processes the full default registry from `get_nsw_postcodes`. -/
theorem explicit_list_processed (env : Env) (l : List String) (hl : l ≠ []) :
    ingest_air_quality_data env (some l) = ingest_list env l ∧
    (ingest_air_quality_data env (some l)).total_postcodes = l.length ∧
    ingest_air_quality_data env none = ingest_list env get_nsw_postcodes ∧
    (ingest_air_quality_data env none).total_postcodes = get_nsw_postcodes.length ∧
    handle_manual_ingestion env (some l) = ingest_air_quality_data env (some l) ∧
    handle_manual_ingestion env none = ingest_list env get_nsw_postcodes := by
  have he : l.isEmpty = false := by
    cases l with
    | nil => exact absurd rfl hl
    | cons a as => rfl
  have hsome : ingest_air_quality_data env (some l) = ingest_list env l := by
    unfold ingest_air_quality_data
    simp [he]
  refine ⟨hsome, ?_, rfl, (ingest_list_invariant env get_nsw_postcodes).1, rfl, rfl⟩
  rw [hsome]
  exact (ingest_list_invariant env l).1

/-- Witness for C8 (amended) on a concrete one-element list. -/
theorem explicit_list_processed_witness :
    (ingest_air_quality_data stubEnv (some ["2000"])).total_postcodes = 1 := by
  have h := (explicit_list_processed stubEnv ["2000"] (by simp)).2.1
  simpa using h

/-- C10: an explicitly empty location list is treated like an absent one:
the run falls back to the full 78-entry default registry. -/
theorem empty_list_falls_back (env : Env) :
    ingest_air_quality_data env (some ([] : List String))
        = ingest_list env get_nsw_postcodes ∧
    (ingest_air_quality_data env (some ([] : List String))).total_postcodes
        = get_nsw_postcodes.length ∧
    get_nsw_postcodes.length = 78 := by
  refine ⟨rfl, ?_, by decide⟩
  exact (ingest_list_invariant env get_nsw_postcodes).1

end AsthmaGuardian
